import Mathlib

/-!
Verification development for the core of the voltaire ERC-4337 bundler:
a shallow embedding of `mempool_manager.py`, `validation_manager.py` and
`gas_manager.py`, with theorems settling the frozen claims about the
mempool admission control, bundle selection, revert-payload classification
and gas estimation code.

Conventions of the embedding:
* Python `dict`s are insertion-ordered association lists (`Dict`), so that
  both the values and the key set (which a failed admission can extend)
  are observable.
* Python `int` arithmetic is `Nat`/`Int`; the places where the source uses
  float division inside `math.ceil` are embedded as exact rational
  arithmetic with `Int.ceil` (all the values involved are far below 2^53,
  where Python float arithmetic on integers and a single division are
  exactly rounded, so the rational model agrees with the float one).
* `async` functions that only await pure RPC results become functions of
  explicit oracle parameters; exceptions become `Except`, and code that
  mutates state before raising returns the mutated state next to the
  `Except` result.
* Unbounded `while` loops are given a fuel parameter; `none` means the
  Python loop has not terminated within the fuel, and the theorems about
  them prove termination (a `some` result) under their hypotheses.
-/

namespace Voltaire

/-! ## Association-list model of Python dicts -/

/-- Model of a Python `dict` with string keys: insertion order is
preserved, updating an existing key keeps its position, and a fresh key is
appended at the end. -/
abbrev Dict (α : Type) := List (String × α)

/-- Membership test, `k in d`. -/
def dictMem {α : Type} : Dict α → String → Bool
  | [], _ => false
  | p :: t, k => if p.1 = k then true else dictMem t k

/-- Lookup with a default, the `d[k] if k in d else default` pattern. -/
def dictGetD {α : Type} : Dict α → String → α → α
  | [], _, default => default
  | p :: t, k, default => if p.1 = k then p.2 else dictGetD t k default

/-- Assignment `d[k] = v`: replaces the first binding in place, appends a
fresh binding at the end. -/
def dictSet {α : Type} : Dict α → String → α → Dict α
  | [], k, v => [(k, v)]
  | p :: t, k, v => if p.1 = k then (k, v) :: t else p :: dictSet t k v

/-- Deletion `del d[k]`. -/
def dictDelete {α : Type} (d : Dict α) (k : String) : Dict α :=
  d.filter (fun p => p.1 ≠ k)

/-- Key snapshot, `list(d)`. -/
def dictKeys {α : Type} (d : Dict α) : List String :=
  d.map Prod.fst

/-! ## Data model

The `UserOperation` record and the `Sender` record live in
`user_operation/user_operation.py` and `bundler/sender.py`, which are not
under `src/`; their shapes below are modelled from the spec (§3) and from
the uses the in-`src/` code makes of them. -/

/-- Modelled from the spec: the `UserOperation` record
(`user_operation/user_operation.py` is not under `src/`). Field list and
order follow spec §3 and the ABI tuple
`(address,uint256,bytes,bytes,uint256,uint256,uint256,uint256,uint256,bytes,bytes)`
used by `gas_manager.simulate_handle_op`. Addresses are strings, byte
strings are lists of byte values. The derived fields `factory_address`,
`paymaster_address`, `associated_addresses` and `code_hash` are carried on
the record as in the source. -/
structure UserOperation where
  sender : String
  nonce : Nat
  initCode : List Nat
  callData : List Nat
  callGasLimit : Nat
  verificationGasLimit : Nat
  preVerificationGas : Nat
  maxFeePerGas : Nat
  maxPriorityFeePerGas : Nat
  paymasterAndData : List Nat
  signature : List Nat
  factoryAddress : Option String
  paymasterAddress : Option String
  associatedAddresses : List String
  codeHash : Nat
deriving DecidableEq, Repr

/-- A blank operation, used as a base for the concrete test operations. -/
def blankUserOperation : UserOperation :=
  { sender := ""
    nonce := 0
    initCode := []
    callData := []
    callGasLimit := 0
    verificationGasLimit := 0
    preVerificationGas := 0
    maxFeePerGas := 0
    maxPriorityFeePerGas := 0
    paymasterAndData := []
    signature := []
    factoryAddress := none
    paymasterAddress := none
    associatedAddresses := []
    codeHash := 0 }

/-- Reputation status of an entity, `reputation_manager.ReputationStatus`. -/
inductive ReputationStatus where
  | ok
  | throttled
  | banned
deriving DecidableEq, Repr

/-- The error taxonomy reachable from the embedded code paths
(`ValidationException`, `BundlerException`, `ExecutionException`, and a
marker for an `eth_abi` decode failure propagating out of the decoders). -/
inductive BundlerError where
  | reputation (message : String)
  | invalidFields (message : String)
  | simulateValidation (message : String)
  | rejectedByEntryPointOrAccount (message : String)
  | executionReverted (data : List Nat)
  | decodeError
deriving DecidableEq, Repr

/-- Boolean success test for an `Except` result. -/
def exceptIsOk {ε α : Type} : Except ε α → Bool
  | .ok _ => true
  | .error _ => false

/-! ## MempoolManager

Embeds `src/voltaire_bundler/bundler/mempool_manager.py`. The mutable
state owned by the manager is the `senders` dict and the
`entity_no_of_ops_in_mempool` dict; the collaborating managers appear as
oracle parameters:
* `getStatus` — `reputation_manager.get_status` (class not under `src/`);
* `validate` — `validation_manager.validate_user_operation` (not under
  `src/`; it returns `is_sender_staked` or raises);
* `getHash` — `UserOperationHandler.get_user_operation_hash` (pure, not
  under `src/`);
* `codeHashFn` — `validation_manager.get_addresses_code_hash`.
`update_all_seen_status` only mutates the reputation manager's own table,
which is outside the mempool state, so it has no effect here. -/

/-- A sender's entry: the manager stores `Sender(address)` objects keyed
by their own address; only the FIFO queue is state the mempool code reads
and writes, so the entry is the queue. -/
structure MempoolState where
  senders : Dict (List UserOperation)
  entityCount : Dict Nat
deriving DecidableEq, Repr

/-- The empty mempool (constructor state). -/
def emptyMempool : MempoolState := { senders := [], entityCount := [] }

/-- Embeds `MempoolManager._verify_entity_reputation` (lines 183-216).
Note two behaviours taken verbatim from the source: the method first
inserts a zero entry for the entity into `entity_no_of_ops_in_mempool`
when the key is absent (a mutation that survives a raised exception), and
line 189 then rebinds the `entity_no_of_ops` parameter to the map value,
discarding whatever count the caller computed (mirrored by the shadowing
`let`). The pair returned is (raised exception or unit, map after). -/
def verifyEntityReputation (getStatus : String → ReputationStatus)
    (entityCount : Dict Nat) (entityAddress entityName : String)
    (entityNoOfOps : Nat) : Except BundlerError Unit × Dict Nat :=
  let ec :=
    if dictMem entityCount entityAddress then entityCount
    else dictSet entityCount entityAddress 0
  let entityNoOfOps := dictGetD ec entityAddress 0
  let result : Except BundlerError Unit :=
    match getStatus entityAddress with
    | .banned =>
        .error (.reputation (String.intercalate " "
          ["user operation was dropped because ", entityAddress,
           "is banned", entityName]))
    | .throttled =>
        if 0 < entityNoOfOps then
          .error (.reputation (String.intercalate " "
            ["user operation was dropped", entityAddress,
             "is throttled", entityName]))
        else .ok ()
    | .ok => .ok ()
  (result, ec)

/-- Embeds `MempoolManager._verify_entities_reputation` (lines 147-181):
the sender count is the sender's queue length (0 when absent), the factory
and paymaster counts come from `entity_no_of_ops_in_mempool` (0 when
absent); the per-entity checks run in order sender, factory, paymaster and
the first exception propagates, keeping the map mutations made so far. -/
def verifyEntitiesReputation (getStatus : String → ReputationStatus)
    (senders : Dict (List UserOperation)) (entityCount : Dict Nat)
    (senderAddress : String) (factoryAddress paymasterAddress : Option String) :
    Except BundlerError Unit × Dict Nat :=
  let senderNoOfOps := (dictGetD senders senderAddress []).length
  let s := verifyEntityReputation getStatus entityCount senderAddress
    "sender" senderNoOfOps
  match s.1 with
  | .error e => (.error e, s.2)
  | .ok _ =>
    let f :=
      match factoryAddress with
      | none => (Except.ok (), s.2)
      | some factory =>
          verifyEntityReputation getStatus s.2 factory "factory"
            (dictGetD s.2 factory 0)
    match f.1 with
    | .error e => (.error e, f.2)
    | .ok _ =>
      match paymasterAddress with
      | none => (Except.ok (), f.2)
      | some paymaster =>
          verifyEntityReputation getStatus f.2 paymaster "paymaster"
            (dictGetD f.2 paymaster 0)

/-- Modelled from the spec: `Sender.add_user_operation` (`sender.py` is
not under `src/`). Spec §3: the queue is a FIFO whose "nonces are strictly
increasing within the queue (ties rejected)"; spec §4.5 step 4: "Enforce
per-sender nonce monotonicity: reject duplicates or out-of-order nonces
with `InvalidFields`". The staked flag does not affect admission. -/
def senderAddUserOperation (queue : List UserOperation)
    (op : UserOperation) (_isSenderStaked : Bool) :
    Except BundlerError (List UserOperation) :=
  if queue.all (fun q => q.nonce < op.nonce) then .ok (queue ++ [op])
  else .error (.invalidFields "invalid nonce")

/-- Embeds `MempoolManager._update_entity_no_of_ops_in_mempool`
(lines 218-222). -/
def updateEntityNoOfOpsInMempool (entityCount : Dict Nat)
    (entityAddress : String) : Dict Nat :=
  dictSet entityCount entityAddress (dictGetD entityCount entityAddress 0 + 1)

/-- The entity-count dict after the two factory/paymaster increment steps
of `add_user_operation` (lines 92-100). -/
def incrementEntityCounts (ec : Dict Nat)
    (factoryAddress paymasterAddress : Option String) : Dict Nat :=
  match paymasterAddress with
  | some paymaster =>
    updateEntityNoOfOpsInMempool
      (match factoryAddress with
       | some factory => updateEntityNoOfOpsInMempool ec factory
       | none => ec) paymaster
  | none =>
    match factoryAddress with
    | some factory => updateEntityNoOfOpsInMempool ec factory
    | none => ec

/-- The `senders` dict after the create-if-absent step of
`add_user_operation` (lines 66-67). -/
def sendersWithEntry (senders : Dict (List UserOperation))
    (senderAddress : String) : Dict (List UserOperation) :=
  if dictMem senders senderAddress then senders
  else dictSet senders senderAddress []

/-- Embeds `MempoolManager.add_user_operation` (lines 52-102). The pair
returned is (hash or raised exception, mempool state after the call);
mutations made before an exception is raised are kept in the state, as in
Python. -/
def addUserOperation (getStatus : String → ReputationStatus)
    (validate : UserOperation → Except BundlerError Bool)
    (getHash : UserOperation → String)
    (st : MempoolState) (op : UserOperation) :
    Except BundlerError String × MempoolState :=
  match (verifyEntitiesReputation getStatus st.senders st.entityCount
      op.sender op.factoryAddress op.paymasterAddress).1 with
  | .error e =>
    (.error e, { st with
      entityCount := (verifyEntitiesReputation getStatus st.senders st.entityCount
        op.sender op.factoryAddress op.paymasterAddress).2 })
  | .ok _ =>
    match validate op with
    | .error e =>
      (.error e, { st with
        entityCount := (verifyEntitiesReputation getStatus st.senders st.entityCount
          op.sender op.factoryAddress op.paymasterAddress).2 })
    | .ok isSenderStaked =>
      match senderAddUserOperation
          (dictGetD (sendersWithEntry st.senders op.sender) op.sender [])
          op isSenderStaked with
      | .error e =>
        (.error e,
          { senders := sendersWithEntry st.senders op.sender,
            entityCount := (verifyEntitiesReputation getStatus st.senders
              st.entityCount op.sender op.factoryAddress op.paymasterAddress).2 })
      | .ok newQueue =>
        (.ok (getHash op),
          { senders := dictSet (sendersWithEntry st.senders op.sender)
              op.sender newQueue,
            entityCount := incrementEntityCounts
              (verifyEntitiesReputation getStatus st.senders st.entityCount
                op.sender op.factoryAddress op.paymasterAddress).2
              op.factoryAddress op.paymasterAddress })

/-- One iteration of the `get_user_operations_to_bundle` loop body
(lines 107-122) for a single snapshot key: when the sender's queue is
nonempty the head op is popped; a recomputed code hash different from the
pinned one drops the op with `continue` (so the empty-queue cleanup below
is skipped); otherwise the op joins the bundle and, when the queue is now
empty, the sender is deleted. -/
def bundleStep (codeHashFn : List String → Nat)
    (acc : List UserOperation × MempoolState) (key : String) :
    List UserOperation × MempoolState :=
  let st := acc.2
  match dictGetD st.senders key [] with
  | [] => acc
  | op :: rest =>
    let senders := dictSet st.senders key rest
    if codeHashFn op.associatedAddresses ≠ op.codeHash then
      (acc.1, { st with senders := senders })
    else if rest.length = 0 then
      (acc.1 ++ [op], { st with senders := dictDelete senders key })
    else
      (acc.1 ++ [op], { st with senders := senders })

/-- Embeds `MempoolManager.get_user_operations_to_bundle` (lines 104-126):
a fold of `bundleStep` over the snapshot `list(self.senders)` of keys. -/
def getUserOperationsToBundle (codeHashFn : List String → Nat)
    (st : MempoolState) : List UserOperation × MempoolState :=
  (dictKeys st.senders).foldl (bundleStep codeHashFn) ([], st)

/-- Embeds `MempoolManager.clear_user_operations` (lines 49-50): clears
the senders dict and nothing else. -/
def clearUserOperations (st : MempoolState) : MempoolState :=
  { st with senders := [] }

/-- A mempool API call, for stating trace properties. -/
inductive MempoolCall where
  | add (op : UserOperation)
  | bundle
  | clear
deriving Repr

/-- Applies one mempool API call to the state, discarding outputs. -/
def applyMempoolCall (getStatus : String → ReputationStatus)
    (validate : UserOperation → Except BundlerError Bool)
    (getHash : UserOperation → String)
    (codeHashFn : List String → Nat)
    (st : MempoolState) : MempoolCall → MempoolState
  | .add op => (addUserOperation getStatus validate getHash st op).2
  | .bundle => (getUserOperationsToBundle codeHashFn st).2
  | .clear => clearUserOperations st

/-- Applies a sequence of mempool API calls from a starting state. -/
def applyMempoolTrace (getStatus : String → ReputationStatus)
    (validate : UserOperation → Except BundlerError Bool)
    (getHash : UserOperation → String)
    (codeHashFn : List String → Nat)
    (calls : List MempoolCall) (st : MempoolState) : MempoolState :=
  calls.foldl (applyMempoolCall getStatus validate getHash codeHashFn) st

/-- The number of ops currently queued across all senders whose factory
address or paymaster address is `e` — the quantity invariant (M2) of the
spec compares `entity_no_of_ops_in_mempool[e]` against. -/
def liveEntityCount (st : MempoolState) (e : String) : Nat :=
  (st.senders.map (fun p =>
    (p.2.filter (fun op =>
      op.factoryAddress = some e ∨ op.paymasterAddress = some e)).length)).sum

/-! ## ValidationManager

Embeds `src/bundler/validation_manager.py`. `simulate_validation` issues
the `eth_call` and splits the revert data into the 4-byte selector and the
remainder; the embedding starts from that split pair. The `eth_abi`
decoders called by the source are an external library; they are modelled
below for the two fixed schemas the source uses, following the standard
Ethereum ABI the spec references (§4.1), with non-canonical words
(overflowing `uint64`/`bool`/`address`) and truncated payloads rejected. -/

/-- Reads the 32-byte big-endian word starting at byte offset `i`;
`none` when the payload is too short. -/
def readWord (bs : List Nat) (i : Nat) : Option Nat :=
  if i + 32 ≤ bs.length then
    some (((bs.drop i).take 32).foldl (fun acc b => acc * 256 + b) 0)
  else none

/-- Reads `len` raw bytes starting at byte offset `i`; `none` when the
payload is too short. -/
def readSlice (bs : List Nat) (i len : Nat) : Option (List Nat) :=
  if i + len ≤ bs.length then some ((bs.drop i).take len) else none

/-- Decoded `ReturnInfo` (`user_operation/models.py`, shape from the spec
§3 and the constructor calls in `decode_validation_result_event`). -/
structure ReturnInfo where
  preOpGas : Nat
  prefund : Nat
  sigFailed : Bool
  validAfter : Nat
  validUntil : Nat
deriving DecidableEq, Repr

/-- Decoded `StakeInfo` (`user_operation/models.py`, shape from the spec
§3 and the constructor calls in `decode_validation_result_event`). -/
structure StakeInfo where
  stake : Nat
  unstakeDelaySec : Nat
deriving DecidableEq, Repr

/-- Decodes one inline static `(uint256,uint256)` stake tuple starting at
byte offset `i`. -/
def decodeStakePair (bs : List Nat) (i : Nat) : Option StakeInfo := do
  let stake ← readWord bs i
  let unstake ← readWord bs (i + 32)
  some (StakeInfo.mk stake unstake)

/-- Decodes the dynamic `(uint256,uint256,bool,uint64,uint64,bytes)` tuple
starting at byte offset `off`: five static words, then the offset of the
`bytes` tail (length word followed by the raw bytes). Non-canonical `bool`
and `uint64` words are rejected; the `bytes` component is validated but,
as in the source, not stored in `ReturnInfo`. -/
def decodeReturnInfoTuple (bs : List Nat) (off : Nat) : Option ReturnInfo := do
  let preOpGas ← readWord bs off
  let prefund ← readWord bs (off + 32)
  let sigFailedWord ← readWord bs (off + 64)
  let validAfter ← readWord bs (off + 96)
  let validUntil ← readWord bs (off + 128)
  let bytesOffset ← readWord bs (off + 160)
  let bytesLen ← readWord bs (off + bytesOffset)
  let _paymasterContext ← readSlice bs (off + bytesOffset + 32) bytesLen
  if 2 ≤ sigFailedWord then none
  else if 2 ^ 64 ≤ validAfter ∨ 2 ^ 64 ≤ validUntil then none
  else some (ReturnInfo.mk preOpGas prefund (decide (sigFailedWord = 1))
    validAfter validUntil)

/-- Modelled from the spec: `eth_abi.decode` at the fixed schema
`["(uint256,uint256,bool,uint64,uint64,bytes)", "(uint256,uint256)",
"(uint256,uint256)", "(uint256,uint256)"]` used by
`decode_validation_result_event` (lines 61-96). The head holds the offset
of the first (dynamic) tuple followed by the three static stake tuples
inline. -/
def decodeValidationResultEvent (bs : List Nat) :
    Option (ReturnInfo × StakeInfo × StakeInfo × StakeInfo) := do
  let tupleOffset ← readWord bs 0
  let senderInfo ← decodeStakePair bs 32
  let factoryInfo ← decodeStakePair bs 96
  let paymasterInfo ← decodeStakePair bs 160
  let returnInfo ← decodeReturnInfoTuple bs tupleOffset
  some (returnInfo, senderInfo, factoryInfo, paymasterInfo)

/-- Modelled from the spec: `eth_abi.decode` at the fixed schema
`["uint256", "address", "string"]` used by `decode_FailedOp_event`
(lines 98-108): operation index, paymaster address, and the offset of the
reason string whose tail is a length word followed by the raw bytes. -/
def decodeFailedOpEvent (bs : List Nat) : Option (Nat × Nat × String) := do
  let operationIndex ← readWord bs 0
  let paymasterAddress ← readWord bs 32
  if 2 ^ 160 ≤ paymasterAddress then none
  else do
    let reasonOffset ← readWord bs 64
    let reasonLen ← readWord bs reasonOffset
    let reasonBytes ← readSlice bs (reasonOffset + 32) reasonLen
    some (operationIndex, paymasterAddress,
      String.mk (reasonBytes.map Char.ofNat))

/-- Selector of `FailedOp(uint256,address,string)`. The constant lives in
`user_operation/models.py` (`FailedOpRevertData.SELECTOR`, not under
`src/`); its value `0x220266b6` is pinned by the in-`src/` dispatch in
`gas_manager.simulate_handle_op` (line 500) and by spec scenario 2. -/
def FAILED_OP_SELECTOR : String := "0x220266b6"

/-- Embeds `ValidationManager.check_if_failed_op_error` (lines 57-59). -/
def checkIfFailedOpError (soliditySelector : String) : Bool :=
  soliditySelector = FAILED_OP_SELECTOR

/-- Embeds `ValidationManager.simulate_validation_and_decode_result`
(lines 34-55), starting from the (selector, params) split that
`simulate_validation` returns: a `FailedOp`-selector payload is decoded as
`FailedOp` and raised as `REJECTED_BY_EP_OR_ACCOUNT` carrying
`"revert reason : " + reason`; every other payload — with no check of its
selector — is handed to `decode_validation_result_event`, whose successful
result is returned as the valid outcome and whose decode failure
propagates as a decode error. -/
def simulateValidationAndDecodeResult (soliditySelector : String)
    (solidityParams : List Nat) :
    Except BundlerError (ReturnInfo × StakeInfo × StakeInfo × StakeInfo) :=
  if checkIfFailedOpError soliditySelector then
    match decodeFailedOpEvent solidityParams with
    | some r => .error (.rejectedByEntryPointOrAccount ("revert reason : " ++ r.2.2))
    | none => .error .decodeError
  else
    match decodeValidationResultEvent solidityParams with
    | some r => .ok r
    | none => .error .decodeError

/-! ## GasManager

Embeds `src/voltaire_bundler/bundler/gas_manager.py`. RPC results
(`eth_gasPrice`, `eth_maxPriorityFeePerGas`, the GasHelper `eth_call`, the
L1 oracles) become oracle parameters; the `math.ceil` over Python float
expressions is embedded as `Int.ceil` over exact rationals (all values
involved stay far below 2^53, where the float computation is exact). -/

/-- Ceiling division on naturals, the exact value of
`math.ceil(a / b)` for nonnegative integers with `b > 0`. -/
def natCeilDiv (a b : Nat) : Nat := (a + b - 1) / b

/-- Python `hex` of a nonnegative int: `0x` followed by lowercase
hexadecimal digits. -/
def toHex (n : Nat) : String := "0x" ++ (Nat.toDigits 16 n).asString

def MAX_VERIFICATION_GAS_LIMIT : Nat := 10000000
def MIN_CALL_GAS_LIMIT : Nat := 21000
def MAX_CALL_GAS_LIMIT : Nat := 30000000

/-! ### Pre-verification gas -/

/-- A Python value appearing in the `user_operation.to_list()` field list:
an address string, an int, or a byte string. -/
inductive UOField where
  | natF (n : Nat)
  | bytesF (bs : List Nat)
  | addrF (a : String)
deriving DecidableEq, Repr

/-- Byte length of a field; the indices the source takes `len` of always
hold byte strings. -/
def UOField.byteLength : UOField → Nat
  | .bytesF bs => bs.length
  | _ => 0

/-- Modelled from the spec: `user_operation.to_list()`
(`user_operation/user_operation.py` is not under `src/`). A fresh list of
the eleven ABI fields in the canonical order of spec §3, pinned in-`src/`
by the ABI tuple
`(address,uint256,bytes,bytes,uint256,uint256,uint256,uint256,uint256,bytes,bytes)`
of `gas_manager.simulate_handle_op`: index 6 is `preVerificationGas`,
index 10 is `signature`. -/
def UserOperation.toList (op : UserOperation) : List UOField :=
  [.addrF op.sender, .natF op.nonce, .bytesF op.initCode, .bytesF op.callData,
   .natF op.callGasLimit, .natF op.verificationGasLimit,
   .natF op.preVerificationGas, .natF op.maxFeePerGas,
   .natF op.maxPriorityFeePerGas, .bytesF op.paymasterAndData,
   .bytesF op.signature]

/-- The 65-byte dummy signature of `calc_base_preverification_gas`
(line 751): 65 bytes of `0x01`. -/
def dummySignature : List Nat := List.replicate 65 1

/-- The field list actually packed by `calc_base_preverification_gas`:
the copy of `to_list()` with index 6 set to `21000` and, when the byte
string at index 10 is shorter than 65 bytes, index 10 replaced by the
65-byte dummy signature (lines 743-751). -/
def modifiedFieldList (op : UserOperation) : List UOField :=
  let l := op.toList.set 6 (.natF 21000)
  if (l.getD 10 (.natF 0)).byteLength < 65 then
    l.set 10 (.bytesF dummySignature)
  else l

/-- Embeds `GasManager.calc_base_preverification_gas` (lines 741-782).
`pack` abstracts `UserOperationHandler.pack_user_operation(list, False)`
(`user_operation/user_operation_handler.py` is not under `src/`): any
function from the modified field list to packed bytes. `fixed /
bundle_size` is Python float division, hence the rational arithmetic
inside the final `math.ceil`. -/
def calcBasePreverificationGas (pack : List UOField → List Nat)
    (op : UserOperation) : Nat :=
  let fixed : Nat := 21000
  let perUserOperation : Nat := 18300
  let perUserOperationWord : Nat := 4
  let zeroByte : Nat := 4
  let nonZeroByte : Nat := 16
  let bundleSize : Nat := 1
  let packed := pack (modifiedFieldList op)
  let packedLength := packed.length
  let zeroByteCount := packed.count 0
  let nonZeroByteCount := packedLength - zeroByteCount
  let callDataCost := zeroByteCount * zeroByte + nonZeroByteCount * nonZeroByte
  let lengthInWords := natCeilDiv (packedLength + 31) 32
  (Int.ceil ((callDataCost : ℚ) + (fixed : ℚ) / (bundleSize : ℚ)
    + (perUserOperation : ℚ)
    + (perUserOperationWord : ℚ) * (lengthInWords : ℚ))).toNat

/-- State-passing form of `calc_base_preverification_gas`: the method
builds a fresh local list with `to_list()` and mutates only that list; it
never assigns to an attribute of `user_operation`, so the operation object
after the call is the one that was passed in. -/
def calcBasePreverificationGasRun (pack : List UOField → List Nat)
    (op : UserOperation) : Nat × UserOperation :=
  (calcBasePreverificationGas pack op, op)

/-- Embeds `GasManager.get_preverification_gas` (lines 707-739).
`l1GasOptimism` and `l1GasArbitrum` abstract the values the two RPC-backed
L1 estimators would return; the chain dispatch picks the Optimism oracle
for chain ids 10 and 420, the Arbitrum one for 42161, and `0` otherwise.
The source's keyword defaults are coefficient 100 and constant 0. -/
def getPreverificationGas (chainId l1GasOptimism l1GasArbitrum : Nat)
    (pack : List UOField → List Nat) (op : UserOperation)
    (coefficient constant : Nat) : Nat :=
  let basePreverificationGas := calcBasePreverificationGas pack op
  let l1Gas : Nat :=
    if chainId = 10 ∨ chainId = 420 then l1GasOptimism
    else if chainId = 42161 then l1GasArbitrum
    else 0
  let calculated := basePreverificationGas + l1Gas
  (Int.ceil ((calculated : ℚ) * (coefficient : ℚ) / 100 + (constant : ℚ))).toNat

/-- The claim's closed formula for the pre-verification gas of a packed
op: `ceil((call_data_cost + 21000/1 + 18300 + 4*length_words) * coeff/100
+ constant)` with `call_data_cost` and `length_words` computed from the
packed bytes. Stated from the claim's words, for comparison with
`getPreverificationGas`. -/
def claimPreverificationGasFormula (packed : List Nat)
    (coefficient constant : Nat) : Nat :=
  let callDataCost := packed.count 0 * 4 + (packed.length - packed.count 0) * 16
  let lengthWords := natCeilDiv (packed.length + 31) 32
  (Int.ceil (((callDataCost : ℚ) + (21000 : ℚ) / 1 + 18300
    + 4 * (lengthWords : ℚ)) * (coefficient : ℚ) / 100 + (constant : ℚ))).toNat

/-! ### Gas-price verification -/

/-- The adjusted block max fee, `math.ceil(block_max_fee_per_gas *
(multiplier / 100))` (line 548). -/
def blockMaxFeeAdjusted (rawBlockMaxFeePerGas multiplier : Nat) : Nat :=
  (Int.ceil ((rawBlockMaxFeePerGas : ℚ) * ((multiplier : ℚ) / 100))).toNat

/-- The tolerance floor, `math.ceil(block_max_fee_per_gas *
(1 - tolerance / 100))` (line 549). For `tolerance ≤ 100` this is the
Python value; above 100 Python would produce a nonpositive int that the
function never reads (every use is inside the `tolerance < 100` branch),
and this model clamps it to 0. -/
def blockMaxFeeWithTolerance (blockMaxFeePerGas tolerance : Nat) : Nat :=
  (Int.ceil ((blockMaxFeePerGas : ℚ) * (1 - (tolerance : ℚ) / 100))).toNat

/-- The adjusted block priority fee, `math.ceil(block_max_priority_fee *
(multiplier / 100))` (line 563). -/
def blockMaxPriorityFeeAdjusted (rawBlockMaxPriorityFeePerGas multiplier : Nat) : Nat :=
  (Int.ceil ((rawBlockMaxPriorityFeePerGas : ℚ) * ((multiplier : ℚ) / 100))).toNat

/-- `max(block_max_fee_per_gas - block_max_priority_fee_per_gas, 1)`
(lines 565-567), over Python ints where the subtraction can go negative. -/
def estimatedBaseFeeOf (blockMaxFeePerGas blockMaxPriorityFeePerGas : Nat) : Nat :=
  if blockMaxPriorityFeePerGas < blockMaxFeePerGas then
    blockMaxFeePerGas - blockMaxPriorityFeePerGas
  else 1

/-- Embeds `GasManager.verify_gas_fees_and_get_price` (lines 526-591).
`rawBlockMaxFeePerGas` and `rawBlockMaxPriorityFeePerGas` are the values
behind the `eth_gasPrice` and `eth_maxPriorityFeePerGas` RPC results
(whose hex strings the source parses and, for the former, returns
verbatim; the model returns its canonical hex rendering). All fee checks
sit inside the `enforce_gas_price_tolerance < 100` branch. -/
def verifyGasFeesAndGetPrice (isLegacyMode : Bool)
    (maxFeeMultiplier maxPriorityFeeMultiplier : Nat)
    (rawBlockMaxFeePerGas rawBlockMaxPriorityFeePerGas : Nat)
    (enforceGasPriceTolerance : Nat)
    (op : UserOperation) : Except BundlerError String :=
  let maxFeePerGas := op.maxFeePerGas
  let maxPriorityFeePerGas := op.maxPriorityFeePerGas
  let blockMaxFeePerGas := blockMaxFeeAdjusted rawBlockMaxFeePerGas maxFeeMultiplier
  let tolerated := blockMaxFeeWithTolerance blockMaxFeePerGas enforceGasPriceTolerance
  if enforceGasPriceTolerance < 100 then
    if isLegacyMode then
      if maxFeePerGas < tolerated then
        .error (.simulateValidation
          ("Max fee per gas is too low. it should be minimum : " ++ toHex tolerated))
      else .ok (toHex rawBlockMaxFeePerGas)
    else
      let blockMaxPriorityFeePerGas :=
        blockMaxPriorityFeeAdjusted rawBlockMaxPriorityFeePerGas maxPriorityFeeMultiplier
      let estimatedBaseFee := estimatedBaseFeeOf blockMaxFeePerGas blockMaxPriorityFeePerGas
      if maxFeePerGas < estimatedBaseFee then
        .error (.invalidFields
          ("Max fee per gas is too low. it should be minimum the estimated base fee: "
            ++ toHex estimatedBaseFee))
      else if maxPriorityFeePerGas < 1 then
        .error (.invalidFields
          "Max priority fee per gas is too low. it should be minimum : 1")
      else if min maxFeePerGas (estimatedBaseFee + maxPriorityFeePerGas) < tolerated then
        .error (.invalidFields
          ("Max fee per gas and (Max priority fee per gas + estimated basefee) should be equal or higher than : "
            ++ toHex tolerated))
      else .ok (toHex rawBlockMaxFeePerGas)
  else .ok (toHex rawBlockMaxFeePerGas)

/-! ### Call-gas estimation by binary search

The GasHelper probe `get_call_data_gas_used` returns a
`(success, gas_used, data)` triple decoded from the `eth_call` result; it
is abstracted by a `helper : Nat → Bool × Nat × List Nat` oracle mapping
the tried `call_gas_limit` to that triple. The two `while` loops take a
fuel parameter; `none` means the Python loop has not terminated within the
fuel. -/

/-- Embeds `GasManager.find_max_min_gas` (lines 182-218): while
`max_gas < MAX_CALL_GAS_LIMIT`, probe at `max_gas`; break on success,
otherwise advance `index`, slide `min_gas` to the failed `max_gas` and set
`max_gas := math.ceil(2**index * gas_used)` — with `gas_used` the value
reported by the probe just made — capped at `MAX_CALL_GAS_LIMIT`
(`2**index * gas_used` is an exact int product, so its `math.ceil` is
itself). Returns `(max_gas, min_gas)`. -/
def findMaxMinGas (helper : Nat → Bool × Nat × List Nat) :
    Nat → Nat → Nat → Nat → Option (Nat × Nat)
  | fuel, index, minGas, maxGas =>
    if maxGas < MAX_CALL_GAS_LIMIT then
      match fuel with
      | 0 => none
      | fuel' + 1 =>
        match helper maxGas with
        | (true, _, _) => some (maxGas, minGas)
        | (false, gasUsed, _) =>
          let index' := index + 1
          let nextMax := 2 ^ index' * gasUsed
          let cappedMax :=
            if MAX_CALL_GAS_LIMIT < nextMax then MAX_CALL_GAS_LIMIT else nextMax
          findMaxMinGas helper fuel' index' maxGas cappedMax
    else some (maxGas, minGas)

/-- The spec-side expansion loop for the refinement claim, following the
spec's words (§4.3.2 step 2) which fix `gasUsed` to the gas measured by
the initial probe: "starting with `min=gasUsed, max=2*gasUsed, i=1`, while
`max < MAX_CALL_GAS_LIMIT` and the helper returns `!success` at `max`, set
`i += 1; min := max; max := ceil(2^i * gasUsed)` (capped at
`MAX_CALL_GAS_LIMIT`). Break as soon as `success` at the current `max`."
Stated over the success oracle alone, with the same fuel discipline as the
code-side loop. -/
def findMaxMinGasSpecFixed (success : Nat → Bool) (gasUsed : Nat) :
    Nat → Nat → Nat → Nat → Option (Nat × Nat)
  | fuel, i, minGas, maxGas =>
    if maxGas < MAX_CALL_GAS_LIMIT then
      match fuel with
      | 0 => none
      | fuel' + 1 =>
        if success maxGas then some (maxGas, minGas)
        else
          let i' := i + 1
          let nextMax := 2 ^ i' * gasUsed
          let cappedMax :=
            if MAX_CALL_GAS_LIMIT < nextMax then MAX_CALL_GAS_LIMIT else nextMax
          findMaxMinGasSpecFixed success gasUsed fuel' i' maxGas cappedMax
    else some (maxGas, minGas)

/-- The `while left + 5000 < right` refinement loop of
`estimate_call_gas_limit_binary_search` (lines 284-299):
`mid = left + math.ceil((right - left) / 2)`; on success `right := mid`,
otherwise `left := mid + 1`; returns `right`. -/
def binarySearchGasLoop (helper : Nat → Bool × Nat × List Nat) :
    Nat → Nat → Nat → Option Nat
  | fuel, left, right =>
    if left + 5000 < right then
      match fuel with
      | 0 => none
      | fuel' + 1 =>
        let mid := left + natCeilDiv (right - left) 2
        match helper mid with
        | (true, _, _) => binarySearchGasLoop helper fuel' left mid
        | (false, _, _) => binarySearchGasLoop helper fuel' (mid + 1) right
    else some right

/-- Fuel budget for the two search loops; both claims prove it is never
exhausted under their hypotheses. -/
def SEARCH_FUEL : Nat := 64

/-- Embeds `GasManager.estimate_call_gas_limit_binary_search`
(lines 246-302): probe at `MAX_CALL_GAS_LIMIT` and raise
`EXECUTION_REVERTED` with the probe's data on failure; otherwise run the
expansion from the measured `gas_used` and then the binary-search loop,
returning `right` (the source renders it as hex; the model returns the
number). -/
def estimateCallGasLimitBinarySearch (helper : Nat → Bool × Nat × List Nat) :
    Option (Except BundlerError Nat) :=
  match helper MAX_CALL_GAS_LIMIT with
  | (false, _, data) => some (.error (.executionReverted data))
  | (true, gasUsed, _) =>
    match findMaxMinGas helper SEARCH_FUEL 1 gasUsed (2 * gasUsed) with
    | none => none
    | some (right, left) =>
      match binarySearchGasLoop helper SEARCH_FUEL left right with
      | none => none
      | some r => some (.ok r)

/-! ## Concrete instances

Oracle stubs and small concrete states used by the evaluation theorems,
counterexamples and witnesses. -/

/-- Reputation oracle: every entity `OK`. -/
def allOkStatus : String → ReputationStatus := fun _ => .ok

/-- Reputation oracle: the address `0xsender` is `THROTTLED`. -/
def throttledSenderStatus : String → ReputationStatus :=
  fun a => if a = "0xsender" then .throttled else .ok

/-- Reputation oracle: the address `0xbad` is `BANNED`. -/
def bannedSenderStatus : String → ReputationStatus :=
  fun a => if a = "0xbad" then .banned else .ok

/-- Validation oracle: always passes, sender unstaked. -/
def validateStubOk : UserOperation → Except BundlerError Bool := fun _ => .ok false

/-- Hash oracle: a fixed hash string. -/
def hashStub : UserOperation → String := fun _ => "0xuserophash"

/-- Code-hash oracle returning `2` for every address set. -/
def codeHashTwo : List String → Nat := fun _ => 2

/-- An op from the throttled sender with nonce 0. -/
def opNonceZero : UserOperation := { blankUserOperation with sender := "0xsender" }

/-- A second op from the throttled sender with nonce 1. -/
def opNonceOne : UserOperation :=
  { blankUserOperation with sender := "0xsender", nonce := 1 }

/-- A mempool in which the throttled sender already has one queued op and
the entity-count dict is empty. -/
def throttledSenderState : MempoolState :=
  { senders := [("0xsender", [opNonceZero])], entityCount := [] }

/-- An op whose factory is `0xfactory`. -/
def opWithFactory : UserOperation :=
  { blankUserOperation with sender := "0xacct", factoryAddress := some "0xfactory" }

/-- An op from the banned sender `0xbad`. -/
def opFromBanned : UserOperation := { blankUserOperation with sender := "0xbad" }

/-- An op whose pinned code hash (1) disagrees with what `codeHashTwo`
recomputes. -/
def opStaleHash : UserOperation :=
  { blankUserOperation with sender := "0xstale", codeHash := 1 }

/-- A mempool whose only sender holds exactly the stale-hash op. -/
def staleHashState : MempoolState :=
  { senders := [("0xstale", [opStaleHash])], entityCount := [] }

/-- A 32-byte big-endian ABI word with value `n < 256`. -/
def wordOf (n : Nat) : List Nat := List.replicate 31 0 ++ [n]

/-- A canonical `ValidationResult` body: offset word 224 to the dynamic
tuple, six zero stake words, five zero static words, offset word 192 to
the `bytes` tail, zero length word — the standard ABI encoding of the
all-zero result with empty `paymasterContext`. -/
def sampleValidationResultPayload : List Nat :=
  wordOf 224 ++ List.replicate 352 0 ++ wordOf 192 ++ List.replicate 32 0

/-- The decoded form of `sampleValidationResultPayload`. -/
def sampleDecodedValidationResult : ReturnInfo × StakeInfo × StakeInfo × StakeInfo :=
  (ReturnInfo.mk 0 0 false 0 0, StakeInfo.mk 0 0, StakeInfo.mk 0 0, StakeInfo.mk 0 0)

/-- A packing stub: every field list packs to the three bytes
`[0, 1, 2]`. -/
def samplePack : List UOField → List Nat := fun _ => [0, 1, 2]

/-- GasHelper oracle that succeeds exactly at limits `≥ 73421` but
reports a gas-used measurement of 20 000 000 at every probe. -/
def helperGasTwentyM : Nat → Bool × Nat × List Nat :=
  fun g => (decide (73421 ≤ g), 20000000, [])

/-- GasHelper oracle with success threshold 10 000 000 whose reported
gas-used measurement differs between the initial probe (1 000 000) and the
probe at 2 000 000 (2 500 000). -/
def helperVaryingGasUsed : Nat → Bool × Nat × List Nat :=
  fun g => (decide (10000000 ≤ g), if g = 2000000 then 2500000 else 1000000, [])

/-- Constant-measurement GasHelper oracle with threshold 73421 and
gas-used 73421 everywhere, satisfying the amended hypotheses of the
binary-search claim. -/
def helperConstGasUsed : Nat → Bool × Nat × List Nat :=
  fun g => (decide (73421 ≤ g), 73421, [])

/-! ## Dict lemmas -/

theorem dictGetD_dictSet {α : Type} (d : Dict α) (k a : String) (v w : α) :
    dictGetD (dictSet d k v) a w = if a = k then v else dictGetD d a w := by
  induction d with
  | nil =>
    by_cases h : a = k
    · simp [dictSet, dictGetD, h]
    · simp [dictSet, dictGetD, h, Ne.symm h]
  | cons p t ih =>
    by_cases hpk : p.1 = k
    · by_cases hak : a = k
      · simp [dictSet, dictGetD, hpk, hak]
      · have hka : ¬k = a := fun e => hak e.symm
        have hpa : ¬p.1 = a := hpk ▸ hka
        simp [dictSet, dictGetD, hpk, hak, hka, hpa]
    · by_cases hpa : p.1 = a
      · have hak : ¬a = k := fun h => hpk (hpa.trans h)
        simp [dictSet, dictGetD, hpk, hpa, hak]
      · simp [dictSet, dictGetD, hpk, hpa, ih]

theorem dictGetD_of_not_mem {α : Type} (d : Dict α) (k : String) (w : α)
    (h : dictMem d k = false) : dictGetD d k w = w := by
  induction d with
  | nil => simp [dictGetD]
  | cons p t ih =>
    by_cases hpk : p.1 = k
    · simp [dictMem, hpk] at h
    · simp [dictMem, hpk] at h
      simp [dictGetD, hpk, ih h]

/-- Inserting the zero entry that `_verify_entity_reputation` creates for
a missing key does not change any defaulted-to-zero value lookup. -/
theorem verifyEntityReputation_snd_getD (gs : String → ReputationStatus)
    (ec : Dict Nat) (addr name : String) (n : Nat) (a : String) :
    dictGetD (verifyEntityReputation gs ec addr name n).2 a 0 =
      dictGetD ec a 0 := by
  unfold verifyEntityReputation
  cases h : dictMem ec addr with
  | true => simp [h]
  | false =>
    simp only [h, Bool.false_eq_true, if_false]
    rw [dictGetD_dictSet]
    by_cases hak : a = addr
    · subst hak
      simp [dictGetD_of_not_mem ec a 0 h]
    · simp [hak]

/-- The reputation pre-checks of admission never change any
defaulted-to-zero entity-count value, whether they pass or raise. -/
theorem verifyEntitiesReputation_snd_getD (gs : String → ReputationStatus)
    (senders : Dict (List UserOperation)) (ec : Dict Nat)
    (senderAddress : String) (factoryAddress paymasterAddress : Option String)
    (a : String) :
    dictGetD (verifyEntitiesReputation gs senders ec senderAddress
      factoryAddress paymasterAddress).2 a 0 = dictGetD ec a 0 := by
  unfold verifyEntitiesReputation
  cases h1 : (verifyEntityReputation gs ec senderAddress "sender"
      (dictGetD senders senderAddress []).length).1 with
  | error e =>
    simp only [h1]
    exact verifyEntityReputation_snd_getD gs ec senderAddress "sender" _ a
  | ok u =>
    simp only [h1]
    cases factoryAddress with
    | none =>
      cases paymasterAddress with
      | none =>
        simp only []
        exact verifyEntityReputation_snd_getD gs ec senderAddress "sender" _ a
      | some paymaster =>
        simp only []
        rw [verifyEntityReputation_snd_getD, verifyEntityReputation_snd_getD]
    | some factory =>
      cases h2 : (verifyEntityReputation gs
          (verifyEntityReputation gs ec senderAddress "sender"
            (dictGetD senders senderAddress []).length).2 factory "factory"
          (dictGetD (verifyEntityReputation gs ec senderAddress "sender"
            (dictGetD senders senderAddress []).length).2 factory 0)).1 with
      | error e =>
        simp only [h2]
        rw [verifyEntityReputation_snd_getD, verifyEntityReputation_snd_getD]
      | ok u2 =>
        simp only [h2]
        cases paymasterAddress with
        | none =>
          rw [verifyEntityReputation_snd_getD, verifyEntityReputation_snd_getD]
        | some paymaster =>
          rw [verifyEntityReputation_snd_getD, verifyEntityReputation_snd_getD,
            verifyEntityReputation_snd_getD]

/-! ## Claims C1-C4: mempool manager -/

/-- Claim C1. The claim states that a THROTTLED sender with at least one
op already in its queue is rejected with a `Reputation("...throttled")`
error. The code computes the sender's queue length and passes it to
`_verify_entity_reputation`, but line 189 rebinds the parameter to
`entity_no_of_ops_in_mempool[sender]` — a freshly zero-initialised entry —
so the throttle test compares against 0 and passes: evaluated at a state
where the THROTTLED sender `0xsender` already has one queued op (and no
entity-count entry), `add_user_operation` succeeds and enqueues the second
op instead of failing. -/
theorem mempool_admits_throttled_sender_with_queued_op :
    (addUserOperation throttledSenderStatus validateStubOk hashStub
      throttledSenderState opNonceOne).1 = Except.ok "0xuserophash" ∧
    dictGetD (addUserOperation throttledSenderStatus validateStubOk hashStub
      throttledSenderState opNonceOne).2.senders "0xsender" [] =
      [opNonceZero, opNonceOne] ∧
    throttledSenderStatus "0xsender" = ReputationStatus.throttled ∧
    (dictGetD throttledSenderState.senders "0xsender" []).length = 1 := by
  refine ⟨rfl, rfl, rfl, rfl⟩

/-- Claim C2. The claim states invariant (M2): after every sequence of
mempool operations, `entity_no_of_ops_in_mempool[e]` equals the number of
currently queued ops whose factory or paymaster is `e`. The code only ever
increments the counters on admission; neither `get_user_operations_to_bundle`
nor `clear_user_operations` decrements them: evaluated on the trace
[admit an op with factory `0xfactory`, clear], the counter for `0xfactory`
is still 1 while no op is queued anywhere. -/
theorem entity_count_not_decremented_on_clear :
    dictGetD (applyMempoolTrace allOkStatus validateStubOk hashStub codeHashTwo
      [.add opWithFactory, .clear] emptyMempool).entityCount "0xfactory" 0 = 1 ∧
    liveEntityCount (applyMempoolTrace allOkStatus validateStubOk hashStub
      codeHashTwo [.add opWithFactory, .clear] emptyMempool) "0xfactory" = 0 := by
  refine ⟨rfl, rfl⟩

/-- Counterexample to claim C3 as stated: `add_user_operation` for an op
whose sender is BANNED fails, yet the `entity_no_of_ops_in_mempool` dict
observable afterwards is `[("0xbad", 0)]`, not the empty dict it was
before the call — `_verify_entity_reputation` inserts the zero entry
before raising. -/
theorem add_user_operation_failure_mutates_entity_dict :
    exceptIsOk (addUserOperation bannedSenderStatus validateStubOk hashStub
      emptyMempool opFromBanned).1 = false ∧
    (addUserOperation bannedSenderStatus validateStubOk hashStub
      emptyMempool opFromBanned).2.entityCount = [("0xbad", 0)] ∧
    emptyMempool.entityCount = [] := by
  refine ⟨rfl, rfl, rfl⟩

/-- Unfolding equation of `addUserOperation` when the reputation check
raises. -/
theorem addUserOperation_verify_error (getStatus : String → ReputationStatus)
    (validate : UserOperation → Except BundlerError Bool)
    (getHash : UserOperation → String)
    (st : MempoolState) (op : UserOperation) (e : BundlerError)
    (h1 : (verifyEntitiesReputation getStatus st.senders st.entityCount
      op.sender op.factoryAddress op.paymasterAddress).1 = .error e) :
    addUserOperation getStatus validate getHash st op =
      (.error e, { st with
        entityCount := (verifyEntitiesReputation getStatus st.senders
          st.entityCount op.sender op.factoryAddress op.paymasterAddress).2 }) := by
  unfold addUserOperation
  rw [h1]

/-- Unfolding equation of `addUserOperation` when validation raises. -/
theorem addUserOperation_validate_error (getStatus : String → ReputationStatus)
    (validate : UserOperation → Except BundlerError Bool)
    (getHash : UserOperation → String)
    (st : MempoolState) (op : UserOperation) (u : Unit) (e : BundlerError)
    (h1 : (verifyEntitiesReputation getStatus st.senders st.entityCount
      op.sender op.factoryAddress op.paymasterAddress).1 = .ok u)
    (h2 : validate op = .error e) :
    addUserOperation getStatus validate getHash st op =
      (.error e, { st with
        entityCount := (verifyEntitiesReputation getStatus st.senders
          st.entityCount op.sender op.factoryAddress op.paymasterAddress).2 }) := by
  unfold addUserOperation
  rw [h1, h2]

/-- Unfolding equation of `addUserOperation` when the sender-queue append
raises (after the sender entry was created if absent). -/
theorem addUserOperation_senderAdd_error (getStatus : String → ReputationStatus)
    (validate : UserOperation → Except BundlerError Bool)
    (getHash : UserOperation → String)
    (st : MempoolState) (op : UserOperation) (u : Unit) (staked : Bool)
    (e : BundlerError)
    (h1 : (verifyEntitiesReputation getStatus st.senders st.entityCount
      op.sender op.factoryAddress op.paymasterAddress).1 = .ok u)
    (h2 : validate op = .ok staked)
    (h4 : senderAddUserOperation
      (dictGetD (sendersWithEntry st.senders op.sender) op.sender [])
      op staked = .error e) :
    addUserOperation getStatus validate getHash st op =
      (.error e,
        { senders := sendersWithEntry st.senders op.sender,
          entityCount := (verifyEntitiesReputation getStatus st.senders
            st.entityCount op.sender op.factoryAddress op.paymasterAddress).2 }) := by
  unfold addUserOperation
  rw [h1, h2]
  simp only [h4]

/-- Unfolding equation of `addUserOperation` on success. -/
theorem addUserOperation_success (getStatus : String → ReputationStatus)
    (validate : UserOperation → Except BundlerError Bool)
    (getHash : UserOperation → String)
    (st : MempoolState) (op : UserOperation) (u : Unit) (staked : Bool)
    (newQueue : List UserOperation)
    (h1 : (verifyEntitiesReputation getStatus st.senders st.entityCount
      op.sender op.factoryAddress op.paymasterAddress).1 = .ok u)
    (h2 : validate op = .ok staked)
    (h4 : senderAddUserOperation
      (dictGetD (sendersWithEntry st.senders op.sender) op.sender [])
      op staked = .ok newQueue) :
    addUserOperation getStatus validate getHash st op =
      (.ok (getHash op),
        { senders := dictSet (sendersWithEntry st.senders op.sender)
            op.sender newQueue,
          entityCount := incrementEntityCounts
            (verifyEntitiesReputation getStatus st.senders st.entityCount
              op.sender op.factoryAddress op.paymasterAddress).2
            op.factoryAddress op.paymasterAddress }) := by
  unfold addUserOperation
  rw [h1, h2]
  simp only [h4]

/-- Claim C3, amended. When `add_user_operation` fails, no observable
value of the mempool changes: every sender's queue (reading an absent
sender as the empty queue) and every entity count (reading an absent entry
as 0) is the same before and after the call. The dicts themselves are not
always equal: the reputation check inserts zero entries for the entities
it inspects before raising, and a failing queue append can leave behind
the freshly created empty sender entry. -/
theorem add_user_operation_failure_preserves_observable_state
    (getStatus : String → ReputationStatus)
    (validate : UserOperation → Except BundlerError Bool)
    (getHash : UserOperation → String)
    (st : MempoolState) (op : UserOperation)
    (hfail : exceptIsOk (addUserOperation getStatus validate getHash st op).1
      = false) :
    (∀ a, dictGetD (addUserOperation getStatus validate getHash st op).2.senders
      a [] = dictGetD st.senders a []) ∧
    (∀ a, dictGetD (addUserOperation getStatus validate getHash st op).2.entityCount
      a 0 = dictGetD st.entityCount a 0) := by
  cases h1 : (verifyEntitiesReputation getStatus st.senders st.entityCount
      op.sender op.factoryAddress op.paymasterAddress).1 with
  | error e =>
    rw [addUserOperation_verify_error getStatus validate getHash st op e h1]
    exact ⟨fun a => rfl, fun a => verifyEntitiesReputation_snd_getD getStatus
      st.senders st.entityCount op.sender op.factoryAddress op.paymasterAddress a⟩
  | ok u =>
    cases h2 : validate op with
    | error e =>
      rw [addUserOperation_validate_error getStatus validate getHash st op u e h1 h2]
      exact ⟨fun a => rfl, fun a => verifyEntitiesReputation_snd_getD getStatus
        st.senders st.entityCount op.sender op.factoryAddress op.paymasterAddress a⟩
    | ok staked =>
      cases h4 : senderAddUserOperation
          (dictGetD (sendersWithEntry st.senders op.sender) op.sender [])
          op staked with
      | error e =>
        rw [addUserOperation_senderAdd_error getStatus validate getHash st op
          u staked e h1 h2 h4]
        refine ⟨fun a => ?_, fun a => verifyEntitiesReputation_snd_getD getStatus
          st.senders st.entityCount op.sender op.factoryAddress op.paymasterAddress a⟩
        show dictGetD (sendersWithEntry st.senders op.sender) a []
          = dictGetD st.senders a []
        unfold sendersWithEntry
        cases h3 : dictMem st.senders op.sender with
        | true => simp [h3]
        | false =>
          simp only [h3, Bool.false_eq_true, if_false]
          rw [dictGetD_dictSet]
          by_cases has : a = op.sender
          · rw [if_pos has, has, dictGetD_of_not_mem st.senders op.sender [] h3]
          · rw [if_neg has]
      | ok newQueue =>
        rw [addUserOperation_success getStatus validate getHash st op
          u staked newQueue h1 h2 h4] at hfail
        exact Bool.noConfusion hfail

/-- Witness for the amended claim C3 at the banned-sender input: the
entity count of `0xbad` reads 0 (its before-the-call default) after the
failed call. -/
theorem add_user_operation_failure_preserves_observable_state_witness :
    dictGetD (addUserOperation bannedSenderStatus validateStubOk hashStub
      emptyMempool opFromBanned).2.entityCount "0xbad" 0 =
      dictGetD emptyMempool.entityCount "0xbad" 0 :=
  (add_user_operation_failure_preserves_observable_state bannedSenderStatus
    validateStubOk hashStub emptyMempool opFromBanned (by decide)).2 "0xbad"

/-- Claim C4. The claim states that a sender whose only op was dropped
for a code-hash mismatch is removed from the senders map. In the code the
mismatch branch is a `continue` placed before the empty-queue cleanup, so
the popped-empty sender entry survives: evaluated at a state whose only
sender holds exactly one op with a stale pinned hash, the bundle is empty,
the op is gone from the queue, but the sender entry is still present
(with an empty queue). -/
theorem bundle_code_hash_drop_keeps_empty_sender :
    (getUserOperationsToBundle codeHashTwo staleHashState).1 = [] ∧
    (getUserOperationsToBundle codeHashTwo staleHashState).2.senders =
      [("0xstale", [])] ∧
    dictMem (getUserOperationsToBundle codeHashTwo staleHashState).2.senders
      "0xstale" = true ∧
    codeHashTwo opStaleHash.associatedAddresses ≠ opStaleHash.codeHash := by
  refine ⟨rfl, rfl, rfl, by decide⟩

/-! ## Claim C5: revert-payload classification -/

set_option maxRecDepth 100000 in
/-- Counterexample to claim C5 as stated: the claim says a payload whose
selector is neither the `FailedOp` selector nor the `ValidationResult`
selector never yields a `Valid` outcome. The code only tests the
`FailedOp` selector, so both of the two distinct selectors below — at most
one of which can be the (single) `ValidationResult` selector — decode a
well-formed `ValidationResult` body to a `Valid` outcome. -/
theorem unknown_selector_can_yield_valid_outcome :
    simulateValidationAndDecodeResult "0x11111111" sampleValidationResultPayload
      = .ok sampleDecodedValidationResult ∧
    simulateValidationAndDecodeResult "0x22222222" sampleValidationResultPayload
      = .ok sampleDecodedValidationResult ∧
    ("0x11111111" : String) ≠ "0x22222222" ∧
    ("0x11111111" : String) ≠ FAILED_OP_SELECTOR ∧
    ("0x22222222" : String) ≠ FAILED_OP_SELECTOR := by
  refine ⟨rfl, rfl, by decide, by decide, by decide⟩

/-- Claim C5, amended. `simulate_validation_and_decode_result` branches
only on the `FailedOp` selector: a `FailedOp`-selector payload decodes to
a `FailedOp` outcome raised as `RejectedByEntryPointOrAccount` carrying
the decoded reason, and a payload with any other selector is decoded as a
`ValidationResult` — yielding a `Valid` outcome whenever its body is a
well-formed `ValidationResult` encoding, regardless of the selector; there
is no `Protocol` outcome. -/
theorem simulate_validation_classifies_on_failed_op_selector_only
    (selector : String) (params : List Nat)
    (r : ReturnInfo × StakeInfo × StakeInfo × StakeInfo)
    (hsel : selector ≠ FAILED_OP_SELECTOR)
    (hdec : decodeValidationResultEvent params = some r) :
    simulateValidationAndDecodeResult selector params = .ok r ∧
    (∀ params2 i a reason, decodeFailedOpEvent params2 = some (i, a, reason) →
      simulateValidationAndDecodeResult FAILED_OP_SELECTOR params2 =
        .error (.rejectedByEntryPointOrAccount ("revert reason : " ++ reason))) := by
  constructor
  · simp [simulateValidationAndDecodeResult, checkIfFailedOpError, hsel, hdec]
  · intro params2 i a reason hfo
    simp [simulateValidationAndDecodeResult, checkIfFailedOpError, hfo]

set_option maxRecDepth 100000 in
/-- Witness for the amended claim C5 at a third concrete unknown
selector and the canonical all-zero `ValidationResult` body. -/
theorem simulate_validation_classifies_on_failed_op_selector_only_witness :
    simulateValidationAndDecodeResult "0x33333333" sampleValidationResultPayload
      = .ok sampleDecodedValidationResult :=
  (simulate_validation_classifies_on_failed_op_selector_only "0x33333333"
    sampleValidationResultPayload sampleDecodedValidationResult
    (by decide) (by rfl)).1

/-! ## Claims C6 and C10: pre-verification gas -/

/-- The field-list substitutions of `calc_base_preverification_gas`
applied to a copy of the op with the same substitutions already applied to
its record fields produce the same list. -/
theorem modifiedFieldList_substituted (op : UserOperation) :
    modifiedFieldList
      { op with
        preVerificationGas := 21000
        signature := if op.signature.length < 65 then dummySignature
          else op.signature } = modifiedFieldList op := by
  by_cases h : op.signature.length < 65
  · simp [modifiedFieldList, UserOperation.toList, UOField.byteLength,
      dummySignature, h]
  · simp [modifiedFieldList, UserOperation.toList, UOField.byteLength, h]

/-- Claim C10. `calc_base_preverification_gas` leaves every field of the
operation unchanged: the `preVerificationGas := 21000` and dummy-signature
substitutions act on the copied field list only. The state-passing
embedding returns the operation object exactly as passed (the method never
assigns to an attribute of `user_operation`), and the computed gas equals
the gas of an operation that already carries the substituted fields,
showing the substitutions are fully absorbed by the copy. -/
theorem calc_base_preverification_gas_leaves_op_unchanged
    (pack : List UOField → List Nat) (op : UserOperation) :
    (calcBasePreverificationGasRun pack op).2 = op ∧
    (calcBasePreverificationGasRun pack op).2.preVerificationGas
      = op.preVerificationGas ∧
    (calcBasePreverificationGasRun pack op).2.signature = op.signature ∧
    (calcBasePreverificationGasRun pack op).1 =
      calcBasePreverificationGas pack
        { op with
          preVerificationGas := 21000
          signature := if op.signature.length < 65 then dummySignature
            else op.signature } := by
  refine ⟨rfl, rfl, rfl, ?_⟩
  show calcBasePreverificationGas pack op = _
  unfold calcBasePreverificationGas
  rw [modifiedFieldList_substituted]

/-- Closed Nat form of `calcBasePreverificationGas`: the rational
arithmetic inside the `math.ceil` is integer-valued (the float division is
by `bundle_size = 1`), so the base pre-verification gas is the plain sum. -/
theorem calcBasePreverificationGas_eval (pack : List UOField → List Nat)
    (op : UserOperation) :
    calcBasePreverificationGas pack op =
      (pack (modifiedFieldList op)).count 0 * 4
        + ((pack (modifiedFieldList op)).length
          - (pack (modifiedFieldList op)).count 0) * 16
        + 21000 + 18300
        + 4 * natCeilDiv ((pack (modifiedFieldList op)).length + 31) 32 := by
  have h : ∀ c w : ℕ, (Int.ceil ((c : ℚ) + ((21000 : ℕ) : ℚ) / ((1 : ℕ) : ℚ)
      + ((18300 : ℕ) : ℚ) + ((4 : ℕ) : ℚ) * (w : ℚ))).toNat
      = c + 21000 + 18300 + 4 * w := by
    intro c w
    have heq : ((c : ℚ) + ((21000 : ℕ) : ℚ) / ((1 : ℕ) : ℚ) + ((18300 : ℕ) : ℚ)
        + ((4 : ℕ) : ℚ) * (w : ℚ)) = ((c + 21000 + 18300 + 4 * w : ℕ) : ℚ) := by
      push_cast
      ring
    rw [heq, Int.ceil_natCast, Int.toNat_natCast]
  exact h _ _

/-- Closed Nat form of the claim's formula at the default coefficient 100
and constant 0. -/
theorem claimPreverificationGasFormula_eval (packed : List Nat) :
    claimPreverificationGasFormula packed 100 0 =
      packed.count 0 * 4 + (packed.length - packed.count 0) * 16
        + 21000 + 18300 + 4 * natCeilDiv (packed.length + 31) 32 := by
  have h : ∀ c w : ℕ, (Int.ceil (((c : ℚ) + (21000 : ℚ) / 1 + 18300
      + 4 * (w : ℚ)) * ((100 : ℕ) : ℚ) / 100 + ((0 : ℕ) : ℚ))).toNat
      = c + 21000 + 18300 + 4 * w := by
    intro c w
    have heq : (((c : ℚ) + (21000 : ℚ) / 1 + 18300 + 4 * (w : ℚ))
        * ((100 : ℕ) : ℚ) / 100 + ((0 : ℕ) : ℚ))
        = ((c + 21000 + 18300 + 4 * w : ℕ) : ℚ) := by
      push_cast
      ring
    rw [heq, Int.ceil_natCast, Int.toNat_natCast]
  exact h _ _

/-- Claim C6. On a chain id outside {10, 420, 42161} the L1 extra term is
0 and the pre-verification gas with the default coefficient 100 and
constant 0 equals the claim's closed formula over the packed bytes of the
substituted copy — for every packing function and both L1 oracles. -/
theorem get_preverification_gas_default_formula
    (chainId l1GasOptimism l1GasArbitrum : Nat)
    (pack : List UOField → List Nat) (op : UserOperation)
    (h10 : chainId ≠ 10) (h420 : chainId ≠ 420) (h42161 : chainId ≠ 42161) :
    getPreverificationGas chainId l1GasOptimism l1GasArbitrum pack op 100 0 =
      claimPreverificationGasFormula (pack (modifiedFieldList op)) 100 0 := by
  rw [claimPreverificationGasFormula_eval]
  unfold getPreverificationGas
  rw [if_neg (not_or.mpr ⟨h10, h420⟩), if_neg h42161]
  have h2 : ∀ b : ℕ, (Int.ceil (((b + 0 : ℕ) : ℚ) * ((100 : ℕ) : ℚ) / 100
      + ((0 : ℕ) : ℚ))).toNat = b := by
    intro b
    have heq : (((b + 0 : ℕ) : ℚ) * ((100 : ℕ) : ℚ) / 100 + ((0 : ℕ) : ℚ))
        = ((b : ℕ) : ℚ) := by
      push_cast
      ring
    rw [heq, Int.ceil_natCast, Int.toNat_natCast]
  rw [h2]
  exact calcBasePreverificationGas_eval pack op

/-- Witness for claim C6 at chain id 1, nonzero L1 oracles (unused on
chain 1), the stub packer and the blank op; the common value evaluates to
39344 = 36 + 21000 + 18300 + 8. -/
theorem get_preverification_gas_default_formula_witness :
    getPreverificationGas 1 5 7 samplePack blankUserOperation 100 0 =
      claimPreverificationGasFormula
        (samplePack (modifiedFieldList blankUserOperation)) 100 0 ∧
    claimPreverificationGasFormula
      (samplePack (modifiedFieldList blankUserOperation)) 100 0 = 39344 :=
  ⟨get_preverification_gas_default_formula 1 5 7 samplePack blankUserOperation
    (by decide) (by decide) (by decide),
   by rw [claimPreverificationGasFormula_eval]; rfl⟩

/-! ## Claim C8: gas-price verification -/

/-- Counterexample to claim C8 as stated: the claim quantifies over every
configured tolerance, but all fee checks sit inside the
`enforce_gas_price_tolerance < 100` branch. At tolerance 100, in non-legacy
mode, an op with `maxPriorityFeePerGas = 0` (violating the claim's
`maxPriorityFeePerGas ≥ 1` condition) is accepted without any
`ValidationException`. -/
theorem gas_fee_checks_skipped_at_tolerance_100 :
    verifyGasFeesAndGetPrice false 100 100 100 10 100 blankUserOperation
      = Except.ok "0x64" ∧
    blankUserOperation.maxPriorityFeePerGas < 1 := by
  refine ⟨rfl, by decide⟩

/-- Claim C8, amended: the stated conditions hold for every tolerance
`t < 100` (at `t ≥ 100` the function performs no fee validation and
returns without error). Below 100: in legacy mode the call succeeds iff
`op.maxFeePerGas ≥ block_max_tol`; in EIP-1559 mode it succeeds iff
`op.maxFeePerGas ≥ base_fee_est`, `op.maxPriorityFeePerGas ≥ 1` and
`min(op.maxFeePerGas, base_fee_est + op.maxPriorityFeePerGas) ≥
block_max_tol`; and when only the third condition fails the raised
error renders the minimum in hex in its message. -/
theorem verify_gas_fees_conditions_below_tolerance_100
    (isLegacyMode : Bool) (mf mp raw rawP tol : Nat) (op : UserOperation)
    (ht : tol < 100) :
    (isLegacyMode = true →
      (exceptIsOk (verifyGasFeesAndGetPrice isLegacyMode mf mp raw rawP tol op)
          = true ↔
        blockMaxFeeWithTolerance (blockMaxFeeAdjusted raw mf) tol
          ≤ op.maxFeePerGas)) ∧
    (isLegacyMode = false →
      (exceptIsOk (verifyGasFeesAndGetPrice isLegacyMode mf mp raw rawP tol op)
          = true ↔
        (estimatedBaseFeeOf (blockMaxFeeAdjusted raw mf)
            (blockMaxPriorityFeeAdjusted rawP mp) ≤ op.maxFeePerGas ∧
          1 ≤ op.maxPriorityFeePerGas ∧
          blockMaxFeeWithTolerance (blockMaxFeeAdjusted raw mf) tol ≤
            min op.maxFeePerGas
              (estimatedBaseFeeOf (blockMaxFeeAdjusted raw mf)
                (blockMaxPriorityFeeAdjusted rawP mp)
                + op.maxPriorityFeePerGas)))) ∧
    (isLegacyMode = false →
      estimatedBaseFeeOf (blockMaxFeeAdjusted raw mf)
        (blockMaxPriorityFeeAdjusted rawP mp) ≤ op.maxFeePerGas →
      1 ≤ op.maxPriorityFeePerGas →
      min op.maxFeePerGas
          (estimatedBaseFeeOf (blockMaxFeeAdjusted raw mf)
            (blockMaxPriorityFeeAdjusted rawP mp) + op.maxPriorityFeePerGas)
        < blockMaxFeeWithTolerance (blockMaxFeeAdjusted raw mf) tol →
      verifyGasFeesAndGetPrice isLegacyMode mf mp raw rawP tol op =
        .error (.invalidFields
          ("Max fee per gas and (Max priority fee per gas + estimated basefee) should be equal or higher than : "
            ++ toHex (blockMaxFeeWithTolerance (blockMaxFeeAdjusted raw mf) tol)))) := by
  refine ⟨?_, ?_, ?_⟩
  · intro hleg
    subst hleg
    unfold verifyGasFeesAndGetPrice
    rw [if_pos ht]
    simp only [if_true]
    split_ifs with h
    · simp only [exceptIsOk]
      constructor
      · intro hfalse
        exact absurd hfalse (by decide)
      · intro hle
        omega
    · simp only [exceptIsOk]
      constructor
      · intro _
        omega
      · intro _
        trivial
  · intro hleg
    subst hleg
    unfold verifyGasFeesAndGetPrice
    rw [if_pos ht]
    simp only [Bool.false_eq_true, if_false]
    split_ifs with hA hB hC
    · simp only [exceptIsOk]
      constructor
      · intro hfalse
        exact absurd hfalse (by decide)
      · intro hc
        omega
    · simp only [exceptIsOk]
      constructor
      · intro hfalse
        exact absurd hfalse (by decide)
      · intro hc
        omega
    · simp only [exceptIsOk]
      constructor
      · intro hfalse
        exact absurd hfalse (by decide)
      · intro hc
        omega
    · simp only [exceptIsOk]
      constructor
      · intro _
        refine ⟨by omega, by omega, by omega⟩
      · intro _
        trivial
  · intro hleg hA hB hC
    subst hleg
    unfold verifyGasFeesAndGetPrice
    rw [if_pos ht]
    simp only [Bool.false_eq_true, if_false]
    rw [if_neg (by omega), if_neg (by omega), if_pos hC]

/-- Witness for the amended claim C8 in legacy mode at tolerance 0. -/
theorem verify_gas_fees_conditions_below_tolerance_100_witness :
    exceptIsOk (verifyGasFeesAndGetPrice true 100 100 100 10 0 blankUserOperation)
        = true ↔
      blockMaxFeeWithTolerance (blockMaxFeeAdjusted 100 100) 0
        ≤ blankUserOperation.maxFeePerGas :=
  (verify_gas_fees_conditions_below_tolerance_100 true 100 100 100 10 0
    blankUserOperation (by decide)).1 rfl

/-! ## Claim C9: the exponential-expansion loop -/

/-- Counterexample to claim C9 as stated: the claim fixes `gasUsed` to the
initial probe's measurement, but the code re-measures it at every failing
probe (line 198 reassigns `gas_used` before line 213 uses it). For the
oracle whose measurement at 2 000 000 differs from the initial one, the
code's loop and the claim's fixed-measurement loop return different
(max, min) pairs. -/
theorem find_max_min_gas_differs_from_fixed_gas_used_loop :
    (helperVaryingGasUsed MAX_CALL_GAS_LIMIT).2.1 = 1000000 ∧
    findMaxMinGas helperVaryingGasUsed SEARCH_FUEL 1 1000000 (2 * 1000000)
      = some (10000000, 2000000) ∧
    findMaxMinGasSpecFixed (fun g => (helperVaryingGasUsed g).1) 1000000
      SEARCH_FUEL 1 1000000 (2 * 1000000) = some (16000000, 8000000) ∧
    ((10000000, 2000000) : Nat × Nat) ≠ (16000000, 8000000) := by
  refine ⟨rfl, by decide, by decide, by decide⟩

/-- Claim C9, amended: the code's expansion loop computes the spec's
sequence with `gasUsed` re-measured at each probe; it coincides with the
spec's fixed-`gasUsed` loop exactly for helpers whose reported measurement
is constant. Stated over every helper of constant measurement `gasUsed0`
(any success oracle, any returned data) and every loop state. -/
theorem find_max_min_gas_eq_spec_loop_for_constant_gas_used
    (success : Nat → Bool) (gasUsed0 : Nat) (data : Nat → List Nat) :
    ∀ fuel index minGas maxGas,
      findMaxMinGas (fun g => (success g, gasUsed0, data g))
          fuel index minGas maxGas
        = findMaxMinGasSpecFixed success gasUsed0 fuel index minGas maxGas := by
  intro fuel
  induction fuel with
  | zero =>
    intro index minGas maxGas
    unfold findMaxMinGas findMaxMinGasSpecFixed
    rfl
  | succ f ih =>
    intro index minGas maxGas
    unfold findMaxMinGas findMaxMinGasSpecFixed
    by_cases hlt : maxGas < MAX_CALL_GAS_LIMIT
    · rw [if_pos hlt, if_pos hlt]
      cases hs : success maxGas with
      | true => simp [hs]
      | false => simp [hs, ih]
    · rw [if_neg hlt, if_neg hlt]

/-! ## Claim C7: binary-search call-gas estimation -/

/-- Counterexample to claim C7 as stated: the claim constrains only the
helper's success behaviour (success iff the limit is at least 73421), but
the search also consumes the helper's reported gas-used measurements. For
the oracle with that success threshold which reports 20 000 000 gas used
at every probe, the expansion starts at min 20 000 000 — inside the
success region — and the binary search converges to 20 004 883, far above
the claimed bound 78 421. -/
theorem binary_search_bounds_fail_for_large_gas_used_report :
    estimateCallGasLimitBinarySearch helperGasTwentyM
      = some (Except.ok 20004883) ∧ 73421 + 5000 < 20004883 := by
  refine ⟨rfl, by decide⟩

/-- Expansion-phase lemma for the 73421-threshold helper: with every
reported measurement positive and enough fuel in the exponent sense, the
loop terminates and returns a pair whose max is a success point at most
`MAX_CALL_GAS_LIMIT` and whose min is at most the threshold. -/
theorem findMaxMinGas_threshold_bounds (gu : Nat → Nat) (df : Nat → List Nat)
    (hgu : ∀ g, 1 ≤ gu g) :
    ∀ fuel index minGas maxGas,
      2 ^ index ≤ maxGas → maxGas ≤ MAX_CALL_GAS_LIMIT →
      MAX_CALL_GAS_LIMIT ≤ 2 ^ (index + fuel) → minGas ≤ 73421 →
      ∃ pr, findMaxMinGas (fun g => (decide (73421 ≤ g), gu g, df g))
          fuel index minGas maxGas = some pr ∧
        pr.1 ≤ MAX_CALL_GAS_LIMIT ∧ 73421 ≤ pr.1 ∧ pr.2 ≤ 73421 := by
  have hM : MAX_CALL_GAS_LIMIT = 30000000 := rfl
  intro fuel
  induction fuel with
  | zero =>
    intro index minGas maxGas h2i hle hcap hmin
    rw [Nat.add_zero] at hcap
    unfold findMaxMinGas
    rw [if_neg (by omega)]
    exact ⟨(maxGas, minGas), rfl, hle, by omega, hmin⟩
  | succ f ih =>
    intro index minGas maxGas h2i hle hcap hmin
    unfold findMaxMinGas
    by_cases hlt : maxGas < MAX_CALL_GAS_LIMIT
    · rw [if_pos hlt]
      by_cases hsucc : 73421 ≤ maxGas
      · refine ⟨(maxGas, minGas), ?_, hle, hsucc, hmin⟩
        simp [decide_eq_true hsucc]
      · have hfail : decide (73421 ≤ maxGas) = false := decide_eq_false hsucc
        by_cases hcapd : MAX_CALL_GAS_LIMIT < 2 ^ (index + 1) * gu maxGas
        · refine ⟨(MAX_CALL_GAS_LIMIT, maxGas), ?_, le_refl _, by omega, by omega⟩
          simp only [hfail, if_pos hcapd]
          unfold findMaxMinGas
          simp
        · have h2i' : 2 ^ (index + 1) ≤ 2 ^ (index + 1) * gu maxGas :=
            Nat.le_mul_of_pos_right _ (hgu maxGas)
          have hle' : 2 ^ (index + 1) * gu maxGas ≤ MAX_CALL_GAS_LIMIT :=
            not_lt.mp hcapd
          have he : index + (f + 1) = index + 1 + f := by omega
          rw [he] at hcap
          obtain ⟨pr, heq, hb1, hb2, hb3⟩ := ih (index + 1) maxGas
            (2 ^ (index + 1) * gu maxGas) h2i' hle' hcap (by omega)
          refine ⟨pr, ?_, hb1, hb2, hb3⟩
          simp only [hfail, if_neg hcapd]
          exact heq
    · rw [if_neg hlt]
      exact ⟨(maxGas, minGas), rfl, hle, by omega, hmin⟩

/-- Binary-search-phase lemma for the 73421-threshold helper: starting
from a left endpoint at most the threshold and a right endpoint at least
the threshold, with the gap bounded by `5000 * 2 ^ fuel`, the loop
terminates and returns a value within [73421, 73421 + 5000]. -/
theorem binarySearchGasLoop_threshold_bounds (gu : Nat → Nat)
    (df : Nat → List Nat) :
    ∀ fuel left right,
      left ≤ 73421 → 73421 ≤ right → right ≤ left + 5000 * 2 ^ fuel →
      ∃ r, binarySearchGasLoop (fun g => (decide (73421 ≤ g), gu g, df g))
          fuel left right = some r ∧
        73421 ≤ r ∧ r ≤ 73421 + 5000 := by
  intro fuel
  induction fuel with
  | zero =>
    intro left right hl hr hd
    rw [pow_zero, Nat.mul_one] at hd
    unfold binarySearchGasLoop
    rw [if_neg (by omega)]
    exact ⟨right, rfl, hr, by omega⟩
  | succ f ih =>
    intro left right hl hr hd
    unfold binarySearchGasLoop
    by_cases hguard : left + 5000 < right
    · rw [if_pos hguard]
      rw [pow_succ] at hd
      by_cases hsucc : 73421 ≤ left + natCeilDiv (right - left) 2
      · have hmb : left + natCeilDiv (right - left) 2 ≤ left + 5000 * 2 ^ f := by
          unfold natCeilDiv
          omega
        obtain ⟨r, heq, hr1, hr2⟩ := ih left (left + natCeilDiv (right - left) 2)
          hl hsucc hmb
        refine ⟨r, ?_, hr1, hr2⟩
        simp only [decide_eq_true hsucc]
        exact heq
      · have hl' : left + natCeilDiv (right - left) 2 + 1 ≤ 73421 := by omega
        have hdb : right ≤ left + natCeilDiv (right - left) 2 + 1
            + 5000 * 2 ^ f := by
          unfold natCeilDiv
          unfold natCeilDiv at hl'
          omega
        obtain ⟨r, heq, hr1, hr2⟩ := ih (left + natCeilDiv (right - left) 2 + 1)
          right hl' hr hdb
        refine ⟨r, ?_, hr1, hr2⟩
        simp only [decide_eq_false hsucc]
        exact heq
    · rw [if_neg hguard]
      exact ⟨right, rfl, hr, by omega⟩

/-- Claim C7, amended: with the helper succeeding exactly at limits
`G ≥ 73421` and the reported gas-used measurements positive everywhere and
at most 73421 at the initial `MAX_CALL_GAS_LIMIT` probe, the binary-search
estimation terminates and returns `r` with `73421 ≤ r ≤ 73421 + 5000` —
the counterexample above shows the measurement hypotheses cannot be
dropped. -/
theorem binary_search_bounds_under_bounded_gas_used
    (gu : Nat → Nat) (df : Nat → List Nat)
    (h1 : ∀ g, 1 ≤ gu g) (h2 : gu MAX_CALL_GAS_LIMIT ≤ 73421) :
    ∃ r, estimateCallGasLimitBinarySearch
        (fun g => (decide (73421 ≤ g), gu g, df g)) = some (Except.ok r) ∧
      73421 ≤ r ∧ r ≤ 73421 + 5000 := by
  have hM : MAX_CALL_GAS_LIMIT = 30000000 := rfl
  have hg1 := h1 MAX_CALL_GAS_LIMIT
  obtain ⟨pr, hexp, hprM, hpr1, hpr2⟩ := findMaxMinGas_threshold_bounds gu df h1
    SEARCH_FUEL 1 (gu MAX_CALL_GAS_LIMIT) (2 * gu MAX_CALL_GAS_LIMIT)
    (by rw [pow_one]; omega) (by omega)
    (by rw [show (1 : Nat) + SEARCH_FUEL = 65 from rfl]; decide) h2
  obtain ⟨p1, p2⟩ := pr
  obtain ⟨r, hbin, hr1, hr2⟩ := binarySearchGasLoop_threshold_bounds gu df
    SEARCH_FUEL p2 p1 hpr2 hpr1
    (by
      have hbig : MAX_CALL_GAS_LIMIT ≤ 5000 * 2 ^ SEARCH_FUEL := by decide
      omega)
  refine ⟨r, ?_, hr1, hr2⟩
  unfold estimateCallGasLimitBinarySearch
  simp only [decide_eq_true (show (73421 : Nat) ≤ MAX_CALL_GAS_LIMIT by omega)]
  rw [hexp]
  show (match binarySearchGasLoop (fun g => (decide (73421 ≤ g), gu g, df g))
      SEARCH_FUEL p2 p1 with
    | none => none
    | some r => some (Except.ok r)) = some (Except.ok r)
  rw [hbin]

/-- Witness for the amended claim C7: the constant-measurement helper
reporting 73421 everywhere satisfies both hypotheses, and the estimation
returns a value in the claimed band. -/
theorem binary_search_bounds_under_bounded_gas_used_witness :
    ∃ r, estimateCallGasLimitBinarySearch helperConstGasUsed
        = some (Except.ok r) ∧ 73421 ≤ r ∧ r ≤ 73421 + 5000 :=
  binary_search_bounds_under_bounded_gas_used (fun _ => 73421) (fun _ => [])
    (fun _ => by show (1 : Nat) ≤ 73421; decide)
    (by show (73421 : Nat) ≤ 73421; decide)

end Voltaire
